import Mathlib

/-!
# Verification of the global-internet-speeds server

Shallow embedding of `src/server/src/index.ts` (Express server serving ranked
internet-speed statistics per geographic tile), together with proofs of the
specification's testable properties.

Modelling conventions:
* A JavaScript number is modelled as `Option ℚ`: `some q` is the finite value
  `q`, `none` models `NaN`.  (`parseFloat` / `parseInt` on a non-numeric CSV
  field yield `NaN`.)
* `Array.prototype.sort(cmp)` (ECMA-262: a stable sort whose output is sorted
  with respect to `SortCompare`, which maps a `NaN` comparator result to `+0`)
  is modelled as stable insertion sort over the boolean relation
  "`cmp a b ≤ 0`", i.e. "`a` may stay before `b`".
* The mutable module state `globalSpeedData`, the startup promise chain and
  the request handlers are modelled by explicit state passing.
-/

namespace GlobalSpeeds

/-- `interface SpeedData` (index.ts, lines 124-133): one tile's aggregated
measurement.  Numeric fields are JS numbers, hence `Option ℚ` / `Option ℤ`
(`none` = `NaN`). -/
structure SpeedData where
  tile : String
  avgDownloadSpeed : Option ℚ
  avgUploadSpeed : Option ℚ
  avgLatency : Option ℚ
  tests : Option ℤ
  devices : Option ℤ
  year : Option ℤ
  quarter : Option ℤ
deriving DecidableEq

/-- One data row as the `csv-parser` stream delivers it to the `"data"`
callback (index.ts, line 142).  Each numeric field holds the result of the
JS parse that `readCSV` applies to the raw field string: `avg_d_kbps`,
`avg_u_kbps`, `avg_lat_ms` hold `parseFloat` results and `tests`, `devices`,
`year`, `quarter` hold `parseInt` results; `none` models `NaN`
(a non-numeric source field). -/
structure RawRow where
  tile : String
  avg_d_kbps : Option ℚ
  avg_u_kbps : Option ℚ
  avg_lat_ms : Option ℚ
  tests : Option ℤ
  devices : Option ℤ
  year : Option ℤ
  quarter : Option ℤ
deriving DecidableEq

/-- The per-row transform of `readCSV` (index.ts, lines 143-152):
`avgDownloadSpeed = parseFloat(data.avg_d_kbps) / 1000`, likewise for upload;
latency kept as parsed; integers kept as parsed.  Division of `NaN` by 1000
stays `NaN` (`Option.map`). -/
def parseRow (data : RawRow) : SpeedData :=
  ⟨data.tile,
   data.avg_d_kbps.map (fun x => x / 1000),
   data.avg_u_kbps.map (fun x => x / 1000),
   data.avg_lat_ms,
   data.tests,
   data.devices,
   data.year,
   data.quarter⟩

/-- `readCSV` (index.ts, lines 137-162): every streamed row is pushed onto
`results`, transformed by `parseRow`; the promise resolves with all of them.
(The error path of the stream is modelled by `LoadResult.err` below.) -/
def readCSV (rows : List RawRow) : List SpeedData :=
  rows.map parseRow

/-- The subtraction `b.avgDownloadSpeed - a.avgDownloadSpeed` performed by the
sort comparator; `NaN` propagates. -/
def jsSub : Option ℚ → Option ℚ → Option ℚ
  | some x, some y => some (x - y)
  | _, _ => none

/-- "`a` may stay before `b`" for the comparator
`(a, b) => b.avgDownloadSpeed - a.avgDownloadSpeed` (index.ts, line 167):
true iff the comparator value is ≤ 0, where ECMA-262 `SortCompare` treats a
`NaN` comparator result as `+0`. -/
def jsLe (a b : SpeedData) : Bool :=
  match jsSub b.avgDownloadSpeed a.avgDownloadSpeed with
  | some v => decide (v ≤ 0)
  | none => true

/-- Insert `a` into `l` before the first element `b` with `jsLe a b`
(the insertion step of the stable sort modelling `Array.prototype.sort`). -/
def orderedInsert (a : SpeedData) : List SpeedData → List SpeedData
  | [] => [a]
  | b :: l => if jsLe a b then a :: b :: l else b :: orderedInsert a l

/-- `data.sort((a, b) => b.avgDownloadSpeed - a.avgDownloadSpeed)`
(index.ts, line 167): the ECMA-mandated stable sort by descending
`avgDownloadSpeed`, realised as stable insertion sort with `jsLe`. -/
def sortBySpeedDesc : List SpeedData → List SpeedData
  | [] => []
  | a :: l => orderedInsert a (sortBySpeedDesc l)

/-- The ranking transform (index.ts, lines 166-168): sort descending by
`avgDownloadSpeed`, then `.slice(0, 10)`. -/
def rankTop10 (l : List SpeedData) : List SpeedData :=
  (sortBySpeedDesc l).take 10

/-- The whole startup pipeline on a successfully read dataset:
`readCSV(...)` then the ranking transform, the value stored into
`globalSpeedData` (index.ts, lines 164-168). -/
def loadSnapshot (rows : List RawRow) : List SpeedData :=
  rankTop10 (readCSV rows)

/-- `globalSpeedData.find((item) => item.tile === tile)`
(index.ts, line 200): the Query Service's single-tile lookup. -/
def getByTile (s : List SpeedData) (t : String) : Option SpeedData :=
  s.find? (fun r => r.tile == t)

/-- One step of building `new Set(...)` by iterating the mapped array:
insert a tile if it is not already present (first occurrence kept). -/
def insertDistinct (acc : List String) (t : String) : List String :=
  if t ∈ acc then acc else acc ++ [t]

/-- `[...new Set(globalSpeedData.map((item) => item.tile))]`
(index.ts, line 188): the distinct tile values in first-occurrence order. -/
def getTiles (s : List SpeedData) : List String :=
  (s.map SpeedData.tile).foldl insertDistinct []

/-- The notification configuration read from the environment
(index.ts, lines 88-89). -/
structure NotifConfig where
  provider : String
  webhookUrl : Option String
deriving DecidableEq

/-- The three webhook payload shapes (index.ts, lines 102-115). -/
inductive Payload where
  | content (s : String)
  | text (s : String)
  | message (s : String)
deriving DecidableEq

/-- The `switch (NOTIFICATION_PROVIDER)` of `sendNotification`
(index.ts, lines 102-115): payload per provider, `none` for an unknown
provider. -/
def payloadFor (provider : String) (msg : String) : Option Payload :=
  match provider with
  | "discord" => some (Payload.content msg)
  | "slack" => some (Payload.text msg)
  | "generic" => some (Payload.message msg)
  | _ => none

/-- The outcome of the `axios.post` webhook delivery, supplied by the
environment. -/
inductive PostOutcome where
  | success
  | failure (err : String)
deriving DecidableEq

/-- `sendNotification` (index.ts, lines 92-122).  Result: `Except` error
(a thrown exception) or the list of log lines produced.  Every branch of the
source returns normally — the `try/catch` swallows the `axios` error and only
logs it — so every branch here is `Except.ok`. -/
def sendNotification (cfg : NotifConfig) (message : String) (post : PostOutcome) :
    Except String (List String) :=
  if cfg.provider = "none" ∨ cfg.webhookUrl = none then
    Except.ok ["Notification skipped: Provider set to none or webhook URL not provided"]
  else
    match payloadFor cfg.provider message with
    | none => Except.ok ["Unknown notification provider: " ++ cfg.provider]
    | some _ =>
      match post with
      | PostOutcome.success => Except.ok [cfg.provider ++ " notification sent successfully"]
      | PostOutcome.failure e =>
          Except.ok ["Error sending " ++ cfg.provider ++ " notification: " ++ e]

/-- An HTTP response of the API: 200 with a JSON body, 404 with a
`{ "message": ... }` body, or 500 with an `{ "error": ... }` body. -/
inductive ApiResult (α : Type) where
  | ok (body : α)
  | clientError (status : Nat) (message : String)
  | serverError (status : Nat) (error : String)
deriving DecidableEq

/-- Handler of `GET /api/internet-speeds` (index.ts, lines 175-183): await the
notification, then `res.json(globalSpeedData)`; a thrown error would produce
the 500 response of the `catch` block. -/
def speedsHandler (snap : List SpeedData) (cfg : NotifConfig) (post : PostOutcome) :
    ApiResult (List SpeedData) :=
  match sendNotification cfg "Website requested internet speeds data" post with
  | Except.ok _ => ApiResult.ok snap
  | Except.error _ => ApiResult.serverError 500 "Internal server error"

/-- Handler of `GET /api/tiles` (index.ts, lines 185-194). -/
def tilesHandler (snap : List SpeedData) (cfg : NotifConfig) (post : PostOutcome) :
    ApiResult (List String) :=
  match sendNotification cfg "Website requested tiles data" post with
  | Except.ok _ => ApiResult.ok (getTiles snap)
  | Except.error _ => ApiResult.serverError 500 "Internal server error"

/-- Handler of `GET /api/internet-speeds/:tile` (index.ts, lines 196-210):
the found record, else 404 `{ "message": "Tile not found" }`. -/
def tileHandler (snap : List SpeedData) (t : String) (cfg : NotifConfig)
    (post : PostOutcome) : ApiResult SpeedData :=
  match sendNotification cfg ("Website requested data for tile: " ++ t) post with
  | Except.ok _ =>
    match getByTile snap t with
    | some r => ApiResult.ok r
    | none => ApiResult.clientError 404 "Tile not found"
  | Except.error _ => ApiResult.serverError 500 "Internal server error"

/-- Outcome of the startup `readCSV("./data/sample.csv")` promise:
success with the parsed rows, or a `LoadError` (file missing, unreadable, or
stream failure). -/
inductive LoadResult where
  | ok (rows : List RawRow)
  | err (msg : String)

/-- `globalSpeedData` before the startup load completes (index.ts, line 135). -/
def initialSnapshot : List SpeedData := []

/-- The startup `.then/.catch` chain (index.ts, lines 164-173): on success,
store the ranked snapshot and log; on `LoadError`, only log — the snapshot is
left as it was.  Returns (new snapshot, log lines). -/
def startupLoad (prev : List SpeedData) (r : LoadResult) :
    List SpeedData × List String :=
  match r with
  | LoadResult.ok rows => (loadSnapshot rows, ["Data loaded successfully"])
  | LoadResult.err e => (prev, ["Error loading data: " ++ e])

/-- The finite value of a record's download speed (0 as a placeholder for
`NaN`; used only under a finiteness hypothesis). -/
def speedVal (r : SpeedData) : ℚ :=
  r.avgDownloadSpeed.getD 0

/-- Boolean test "this record's download speed is exactly the finite value
`q`" (the key used to state sort stability). -/
def speedEq (q : ℚ) (r : SpeedData) : Bool :=
  r.avgDownloadSpeed == some q

/-- All numeric fields of a record are finite (no `NaN`). -/
def finiteFields (r : SpeedData) : Prop :=
  r.avgDownloadSpeed.isSome = true ∧ r.avgUploadSpeed.isSome = true ∧
  r.avgLatency.isSome = true ∧ r.tests.isSome = true ∧
  r.devices.isSome = true ∧ r.year.isSome = true ∧ r.quarter.isSome = true

instance (r : SpeedData) : Decidable (finiteFields r) := by
  unfold finiteFields; infer_instance

/-- All fields of a source row parsed as numeric (no `NaN` among the parse
results). -/
def rawNumeric (d : RawRow) : Prop :=
  d.avg_d_kbps.isSome = true ∧ d.avg_u_kbps.isSome = true ∧
  d.avg_lat_ms.isSome = true ∧ d.tests.isSome = true ∧
  d.devices.isSome = true ∧ d.year.isSome = true ∧ d.quarter.isSome = true

instance (d : RawRow) : Decidable (rawNumeric d) := by
  unfold rawNumeric; infer_instance

/-! ## Basic lemmas about the sort -/

theorem mem_orderedInsert (a x : SpeedData) (l : List SpeedData) :
    x ∈ orderedInsert a l ↔ x = a ∨ x ∈ l := by
  induction l with
  | nil => simp [orderedInsert]
  | cons b l ih =>
    unfold orderedInsert
    by_cases h : jsLe a b = true
    · simp [h]
    · simp only [if_neg h, List.mem_cons, ih]
      tauto

theorem orderedInsert_perm (a : SpeedData) (l : List SpeedData) :
    (orderedInsert a l).Perm (a :: l) := by
  induction l with
  | nil => simp [orderedInsert]
  | cons b l ih =>
    unfold orderedInsert
    by_cases h : jsLe a b = true
    · simp [h]
    · simp only [if_neg h]
      exact ((ih.cons b).trans (List.Perm.swap a b l))

theorem sortBySpeedDesc_perm (l : List SpeedData) :
    (sortBySpeedDesc l).Perm l := by
  induction l with
  | nil => simp [sortBySpeedDesc]
  | cons a l ih =>
    exact (orderedInsert_perm a (sortBySpeedDesc l)).trans (ih.cons a)

theorem length_sortBySpeedDesc (l : List SpeedData) :
    (sortBySpeedDesc l).length = l.length :=
  (sortBySpeedDesc_perm l).length_eq

theorem jsLe_iff (a b : SpeedData) (ha : a.avgDownloadSpeed.isSome = true)
    (hb : b.avgDownloadSpeed.isSome = true) :
    jsLe a b = true ↔ speedVal b ≤ speedVal a := by
  obtain ⟨x, hx⟩ := Option.isSome_iff_exists.mp ha
  obtain ⟨y, hy⟩ := Option.isSome_iff_exists.mp hb
  simp [jsLe, jsSub, hx, hy, speedVal, sub_nonpos]

theorem pairwise_orderedInsert (a : SpeedData) (l : List SpeedData)
    (ha : a.avgDownloadSpeed.isSome = true)
    (hl : ∀ r ∈ l, r.avgDownloadSpeed.isSome = true)
    (h : l.Pairwise (fun x y => speedVal y ≤ speedVal x)) :
    (orderedInsert a l).Pairwise (fun x y => speedVal y ≤ speedVal x) := by
  induction l with
  | nil => simp [orderedInsert]
  | cons b l ih =>
    have hb : b.avgDownloadSpeed.isSome = true := hl b (by simp)
    unfold orderedInsert
    by_cases hab : jsLe a b = true
    · have hba : speedVal b ≤ speedVal a := (jsLe_iff a b ha hb).mp hab
      simp only [if_pos hab]
      constructor
      · intro x hx
        rcases List.mem_cons.mp hx with hxb | hxl
        · exact hxb ▸ hba
        · exact le_trans ((List.pairwise_cons.mp h).1 x hxl) hba
      · exact h
    · have hab' : speedVal a ≤ speedVal b := by
        have := (jsLe_iff a b ha hb).not.mp (by simp [hab])
        exact le_of_not_le this
      simp only [if_neg hab]
      constructor
      · intro x hx
        rcases (mem_orderedInsert a x l).mp hx with rfl | hxl
        · exact hab'
        · exact (List.pairwise_cons.mp h).1 x hxl
      · exact ih (fun r hr => hl r (by simp [hr])) (List.pairwise_cons.mp h).2

theorem pairwise_sortBySpeedDesc (l : List SpeedData)
    (hl : ∀ r ∈ l, r.avgDownloadSpeed.isSome = true) :
    (sortBySpeedDesc l).Pairwise (fun x y => speedVal y ≤ speedVal x) := by
  induction l with
  | nil => simp [sortBySpeedDesc]
  | cons a l ih =>
    have hmem : ∀ r ∈ sortBySpeedDesc l, r.avgDownloadSpeed.isSome = true :=
      fun r hr => hl r (by
        have := (sortBySpeedDesc_perm l).mem_iff.mp hr
        simp [this])
    exact pairwise_orderedInsert a (sortBySpeedDesc l) (hl a (by simp)) hmem
      (ih (fun r hr => hl r (by simp [hr])))

/-! ## Stability of the sort -/

theorem filter_orderedInsert_of_neg (p : SpeedData → Bool) (a : SpeedData)
    (l : List SpeedData) (hpa : p a = false) :
    (orderedInsert a l).filter p = l.filter p := by
  induction l with
  | nil => simp [orderedInsert, hpa]
  | cons b l ih =>
    unfold orderedInsert
    by_cases h : jsLe a b = true
    · simp [h, List.filter_cons, hpa]
    · simp only [if_neg h, List.filter_cons, ih]

theorem filter_orderedInsert_of_speedEq (q : ℚ) (a : SpeedData)
    (l : List SpeedData) (hpa : speedEq q a = true) :
    (orderedInsert a l).filter (speedEq q) = a :: l.filter (speedEq q) := by
  have ha : a.avgDownloadSpeed = some q := by
    simpa [speedEq] using hpa
  induction l with
  | nil => simp [orderedInsert, List.filter_cons, hpa]
  | cons b l ih =>
    unfold orderedInsert
    by_cases h : jsLe a b = true
    · simp [h, List.filter_cons, hpa]
    · have hb : speedEq q b = false := by
        rcases hw : b.avgDownloadSpeed with _ | w
        · simp [speedEq, hw]
        · have : ¬ (w - q ≤ 0) := by
            intro hle
            apply h
            simp [jsLe, jsSub, ha, hw, hle]
          have hwq : q < w := by linarith [lt_of_not_le this]
          simp [speedEq, hw]
          exact fun hcontra => absurd hcontra (by
            intro he
            exact absurd he.symm (ne_of_lt hwq))
      simp only [if_neg h, List.filter_cons, hb]
      simp only [Bool.false_eq_true, if_neg (by simp [hb] : ¬ (speedEq q b = true))]
      exact ih

theorem filter_sortBySpeedDesc (q : ℚ) (l : List SpeedData) :
    (sortBySpeedDesc l).filter (speedEq q) = l.filter (speedEq q) := by
  induction l with
  | nil => simp [sortBySpeedDesc]
  | cons a l ih =>
    show (orderedInsert a (sortBySpeedDesc l)).filter (speedEq q) = _
    by_cases hpa : speedEq q a = true
    · rw [filter_orderedInsert_of_speedEq q a _ hpa, ih, List.filter_cons, if_pos hpa]
    · rw [filter_orderedInsert_of_neg (speedEq q) a _ (by simp [hpa]), ih,
        List.filter_cons]
      simp [hpa]

/-! ## Lemmas about the query service -/

theorem sendNotification_ok (cfg : NotifConfig) (msg : String) (post : PostOutcome) :
    ∃ ls, sendNotification cfg msg post = Except.ok ls := by
  unfold sendNotification
  split
  · exact ⟨_, rfl⟩
  · split
    · exact ⟨_, rfl⟩
    · cases post
      · exact ⟨_, rfl⟩
      · exact ⟨_, rfl⟩

theorem tileHandler_eq (s : List SpeedData) (t : String) (cfg : NotifConfig)
    (post : PostOutcome) :
    tileHandler s t cfg post =
      match getByTile s t with
      | some r => ApiResult.ok r
      | none => ApiResult.clientError 404 "Tile not found" := by
  obtain ⟨ls, hls⟩ := sendNotification_ok cfg ("Website requested data for tile: " ++ t) post
  simp [tileHandler, hls]

theorem getByTile_eq_some (s : List SpeedData) (t : String) (r : SpeedData)
    (hnd : (s.map SpeedData.tile).Nodup) (hr : r ∈ s) (ht : r.tile = t) :
    getByTile s t = some r := by
  induction s with
  | nil => cases hr
  | cons a s ih =>
    by_cases h : a.tile = t
    · have hfind : getByTile (a :: s) t = some a := by
        simp [getByTile, List.find?_cons_of_pos, h]
      rcases List.mem_cons.mp hr with rfl | hrs
      · exact hfind
      · exfalso
        have hmem : r.tile ∈ s.map SpeedData.tile := List.mem_map_of_mem _ hrs
        have hha : a.tile ∉ s.map SpeedData.tile :=
          (List.nodup_cons.mp (by simpa using hnd)).1
        rw [ht, ← h] at hmem
        exact hha hmem
    · have hra : r ≠ a := fun he => h (he ▸ ht)
      have hrs : r ∈ s := (List.mem_cons.mp hr).resolve_left hra
      have : getByTile (a :: s) t = getByTile s t := by
        simp [getByTile, List.find?_cons_of_neg, h]
      rw [this]
      exact ih (List.nodup_cons.mp (by simpa using hnd)).2 hrs

theorem getByTile_eq_none (s : List SpeedData) (t : String)
    (h : ∀ r ∈ s, r.tile ≠ t) : getByTile s t = none := by
  simp only [getByTile, List.find?_eq_none]
  intro r hr
  simpa using h r hr

theorem getByTile_eq_head_filter (s : List SpeedData) (t : String) :
    getByTile s t = (s.filter (fun r => r.tile == t)).head? := by
  induction s with
  | nil => rfl
  | cons a s ih =>
    by_cases h : a.tile = t
    · simp [getByTile, List.find?_cons_of_pos, List.filter_cons, h]
    · have h' : (a.tile == t) = false := by simpa using h
      simp only [getByTile, List.filter_cons, h'] at ih ⊢
      rw [List.find?_cons_of_neg _ (by simp [h])]
      exact ih

theorem mem_foldl_insertDistinct (l acc : List String) (t : String) :
    t ∈ l.foldl insertDistinct acc ↔ t ∈ acc ∨ t ∈ l := by
  induction l generalizing acc with
  | nil => simp
  | cons a l ih =>
    rw [List.foldl_cons, ih]
    unfold insertDistinct
    by_cases h : a ∈ acc
    · simp only [if_pos h, List.mem_cons]
      constructor
      · tauto
      · rintro (hc | rfl | hc)
        · exact Or.inl hc
        · exact Or.inl h
        · exact Or.inr hc
    · simp only [if_neg h, List.mem_append, List.mem_singleton, List.mem_cons]
      tauto

theorem nodup_foldl_insertDistinct (l acc : List String) (h : acc.Nodup) :
    (l.foldl insertDistinct acc).Nodup := by
  induction l generalizing acc with
  | nil => simpa
  | cons a l ih =>
    rw [List.foldl_cons]
    apply ih
    unfold insertDistinct
    by_cases ha : a ∈ acc
    · simpa [if_pos ha]
    · rw [if_neg ha]
      simp [List.nodup_append, h, ha]

theorem mem_getTiles (s : List SpeedData) (t : String) :
    t ∈ getTiles s ↔ t ∈ s.map SpeedData.tile := by
  unfold getTiles
  rw [mem_foldl_insertDistinct]
  simp

theorem nodup_getTiles (s : List SpeedData) : (getTiles s).Nodup :=
  nodup_foldl_insertDistinct _ _ (List.nodup_nil)

/-! ## Concrete inputs for witnesses and counterexamples -/

/-- A record with the given tile and finite download speed (the remaining
fields are fixed finite values); used as concrete check input. -/
def mkRec (t : String) (d : ℚ) : SpeedData :=
  ⟨t, some d, some 1, some 20, some 5, some 3, some 2023, some 1⟩

/-- Concrete input with a tie at download speed 120 (spec §8 scenario). -/
def exRanking : List SpeedData :=
  [mkRec "A" 5, mkRec "B" 120, mkRec "C" 80, mkRec "D" 120, mkRec "E" 30]

/-- A concrete three-record snapshot with pairwise distinct tiles. -/
def exSnap : List SpeedData := [mkRec "A" 9, mkRec "B" 7, mkRec "C" 5]

/-- A notification configuration with no provider. -/
def exCfg : NotifConfig := ⟨"none", none⟩

/-- A fully numeric source row with tile "A". -/
def rowA : RawRow := ⟨"A", some 1000, some 500, some 20, some 5, some 3, some 2023, some 1⟩

/-- A fully numeric source row with tile "B". -/
def rowB : RawRow := ⟨"B", some 2000, some 700, some 25, some 6, some 4, some 2023, some 1⟩

/-- A fully numeric source row whose tile duplicates `rowA`'s. -/
def rowA2 : RawRow := ⟨"A", some 3000, some 900, some 15, some 7, some 5, some 2023, some 1⟩

/-- A source row whose `avg_d_kbps` field is non-numeric (`parseFloat`
returned `NaN`). -/
def badRow : RawRow := ⟨"bad", none, some 1, some 1, some 1, some 1, some 2023, some 1⟩

/-! ## The claims -/

/-- C1: For every input sequence of Records, the Ranking Transform's output is
sorted in descending order of `avgDownloadSpeed`, and for any two input
Records with equal `avgDownloadSpeed` their relative order in the output
equals their relative order in the input (the sort is stable).  Stability is
stated as: for every speed value `q`, the sorted sequence restricted to
records of speed `q` is exactly the input so restricted, and the truncated
output so restricted is a subsequence of it. -/
theorem spec_C1 (l : List SpeedData)
    (h : ∀ r ∈ l, r.avgDownloadSpeed.isSome = true) :
    (rankTop10 l).Pairwise (fun a b => speedVal b ≤ speedVal a) ∧
    ∀ q : ℚ, (sortBySpeedDesc l).filter (speedEq q) = l.filter (speedEq q) ∧
      List.Sublist ((rankTop10 l).filter (speedEq q)) (l.filter (speedEq q)) := by
  constructor
  · exact List.Pairwise.sublist (List.take_sublist 10 _) (pairwise_sortBySpeedDesc l h)
  · intro q
    refine ⟨filter_sortBySpeedDesc q l, ?_⟩
    have h1 : List.Sublist ((rankTop10 l).filter (speedEq q))
        ((sortBySpeedDesc l).filter (speedEq q)) :=
      (List.take_sublist 10 _).filter _
    rwa [filter_sortBySpeedDesc] at h1

/-- Witness for C1 at a concrete five-record input with a tie at speed 120. -/
theorem spec_C1_witness :
    (rankTop10 exRanking).Pairwise (fun a b => speedVal b ≤ speedVal a) ∧
    (sortBySpeedDesc exRanking).filter (speedEq 120) = exRanking.filter (speedEq 120) ∧
    List.Sublist ((rankTop10 exRanking).filter (speedEq 120))
      (exRanking.filter (speedEq 120)) :=
  ⟨(spec_C1 exRanking (by decide)).1, (spec_C1 exRanking (by decide)).2 120⟩

/-- C2: For every non-empty input sequence of Records, the Ranking Transform's
output length equals `min 10 (input length)`. -/
theorem spec_C2 (l : List SpeedData) (_h : l ≠ []) :
    (rankTop10 l).length = min 10 l.length := by
  unfold rankTop10
  rw [List.length_take, length_sortBySpeedDesc]

/-- Witness for C2 at a concrete five-record input. -/
theorem spec_C2_witness :
    exRanking ≠ [] ∧ (rankTop10 exRanking).length = min 10 exRanking.length :=
  ⟨by decide, spec_C2 exRanking (by decide)⟩

/-- C3: Under the tile-uniqueness precondition, `getByTile` (the
`/api/internet-speeds/:tile` handler) returns the matching Record when one
exists, and the 404 response with body `{ "message": "Tile not found" }`
when no Record matches. -/
theorem spec_C3 (s : List SpeedData) (t : String) (cfg : NotifConfig)
    (post : PostOutcome) (hnd : (s.map SpeedData.tile).Nodup) :
    (∀ r ∈ s, r.tile = t → tileHandler s t cfg post = ApiResult.ok r) ∧
    ((∀ r ∈ s, r.tile ≠ t) →
      tileHandler s t cfg post = ApiResult.clientError 404 "Tile not found") := by
  rw [tileHandler_eq]
  constructor
  · intro r hr ht
    rw [getByTile_eq_some s t r hnd hr ht]
  · intro h
    rw [getByTile_eq_none s t h]

/-- Witness for C3: a present tile is found, an absent tile yields the 404
result, on a concrete three-record snapshot. -/
theorem spec_C3_witness :
    tileHandler exSnap "B" exCfg PostOutcome.success = ApiResult.ok (mkRec "B" 7) ∧
    tileHandler exSnap "Z" exCfg PostOutcome.success =
      ApiResult.clientError 404 "Tile not found" :=
  ⟨(spec_C3 exSnap "B" exCfg PostOutcome.success (by decide)).1
      (mkRec "B" 7) (by decide) (by decide),
   (spec_C3 exSnap "Z" exCfg PostOutcome.success (by decide)).2 (by decide)⟩

/-- Counterexample to C4 as stated: the loader performs no deduplication, so
an input whose rows repeat a tile yields a snapshot with a repeated tile. -/
theorem spec_C4_cex :
    ¬ ((loadSnapshot [rowA, rowA2]).map SpeedData.tile).Nodup := by
  have hmap : (loadSnapshot [rowA, rowA2]).map SpeedData.tile = ["A", "A"] := by
    norm_num [loadSnapshot, readCSV, parseRow, rankTop10, sortBySpeedDesc,
      orderedInsert, jsLe, jsSub, rowA, rowA2]
  rw [hmap]
  decide

/-- C4 (amended): if the input rows have pairwise distinct tiles, then so do
the Records of the resulting snapshot (the pipeline itself never introduces a
duplicate; it preserves tiles, permutes rows and truncates). -/
theorem spec_C4_amended (rows : List RawRow)
    (h : (rows.map RawRow.tile).Nodup) :
    ((loadSnapshot rows).map SpeedData.tile).Nodup := by
  have hcsv : (readCSV rows).map SpeedData.tile = rows.map RawRow.tile := by
    unfold readCSV
    rw [List.map_map]
    rfl
  have hsortperm : ((sortBySpeedDesc (readCSV rows)).map SpeedData.tile).Perm
      ((readCSV rows).map SpeedData.tile) :=
    (sortBySpeedDesc_perm _).map _
  have hsortnd : ((sortBySpeedDesc (readCSV rows)).map SpeedData.tile).Nodup := by
    rw [hsortperm.nodup_iff, hcsv]
    exact h
  have hsub : List.Sublist ((loadSnapshot rows).map SpeedData.tile)
      ((sortBySpeedDesc (readCSV rows)).map SpeedData.tile) := by
    unfold loadSnapshot rankTop10
    exact (List.take_sublist 10 _).map _
  exact List.Nodup.sublist hsub hsortnd

/-- Witness for the amended C4 at a concrete two-row input with distinct
tiles. -/
theorem spec_C4_witness : ((loadSnapshot [rowA, rowB]).map SpeedData.tile).Nodup :=
  spec_C4_amended [rowA, rowB] (by decide)

/-- Counterexample to C5 as stated: a row whose `avg_d_kbps` did not parse as
numeric is kept by the loader as a Record whose `avgDownloadSpeed` is `NaN` —
the loader neither rejects nor flags it. -/
theorem spec_C5_cex :
    (readCSV [badRow]).length = 1 ∧ ¬ (∀ r ∈ readCSV [badRow], finiteFields r) := by
  refine ⟨rfl, ?_⟩
  intro h
  have h1 := (h (parseRow badRow) (by simp [readCSV])).1
  simp [parseRow, badRow] at h1

/-- C5 (amended): the loader performs no rejection or flagging — every source
row yields exactly one Record, and a Record's numeric fields are all finite
exactly when the source row's fields all parsed as numeric; a row with a
non-numeric field is kept as a Record with a `NaN` field. -/
theorem spec_C5_amended (rows : List RawRow) :
    (readCSV rows).length = rows.length ∧
    ∀ d : RawRow, (finiteFields (parseRow d) ↔ rawNumeric d) := by
  constructor
  · simp [readCSV]
  · intro d
    unfold finiteFields rawNumeric parseRow
    simp

/-- C6: on a failed dataset read (`LoadError`), the startup `.catch` only logs
the error; the snapshot stays empty and `GET /api/internet-speeds` then
answers 200 with the empty array, whatever the notification configuration and
webhook outcome. -/
theorem spec_C6 (e : String) (cfg : NotifConfig) (post : PostOutcome) :
    (startupLoad initialSnapshot (LoadResult.err e)).1 = [] ∧
    (startupLoad initialSnapshot (LoadResult.err e)).2 = ["Error loading data: " ++ e] ∧
    speedsHandler (startupLoad initialSnapshot (LoadResult.err e)).1 cfg post =
      ApiResult.ok [] := by
  refine ⟨rfl, rfl, ?_⟩
  obtain ⟨ls, hls⟩ := sendNotification_ok cfg "Website requested internet speeds data" post
  simp [speedsHandler, startupLoad, initialSnapshot, hls]

/-- C7: every query handler's response is independent of the webhook delivery
outcome — `sendNotification` swallows its errors, so the two list endpoints
always answer 200 with their query result, and the tile endpoint answers
identically for any two delivery outcomes. -/
theorem spec_C7 (snap : List SpeedData) (t : String) (cfg : NotifConfig)
    (post post' : PostOutcome) :
    speedsHandler snap cfg post = ApiResult.ok snap ∧
    tilesHandler snap cfg post = ApiResult.ok (getTiles snap) ∧
    tileHandler snap t cfg post = tileHandler snap t cfg post' := by
  obtain ⟨l1, h1⟩ := sendNotification_ok cfg "Website requested internet speeds data" post
  obtain ⟨l2, h2⟩ := sendNotification_ok cfg "Website requested tiles data" post
  refine ⟨by simp [speedsHandler, h1], by simp [tilesHandler, h2], ?_⟩
  rw [tileHandler_eq, tileHandler_eq]

/-- C8: the per-row transform divides `avg_d_kbps` and `avg_u_kbps` by 1000,
keeps `avg_lat_ms` unchanged, and keeps the integer-parsed fields unchanged;
the download-speed round-trip `avgDownloadSpeed * 1000 = avg_d_kbps` holds
exactly. -/
theorem spec_C8 (d : RawRow) (k u : ℚ)
    (hk : d.avg_d_kbps = some k) (hu : d.avg_u_kbps = some u) :
    (parseRow d).avgDownloadSpeed = some (k / 1000) ∧
    (parseRow d).avgDownloadSpeed.map (fun x => x * 1000) = some k ∧
    (parseRow d).avgUploadSpeed = some (u / 1000) ∧
    (parseRow d).avgLatency = d.avg_lat_ms ∧
    (parseRow d).tests = d.tests ∧
    (parseRow d).devices = d.devices ∧
    (parseRow d).year = d.year ∧
    (parseRow d).quarter = d.quarter := by
  refine ⟨?_, ?_, ?_, rfl, rfl, rfl, rfl, rfl⟩
  · simp [parseRow, hk]
  · simp only [parseRow, hk, Option.map_map, Option.map_some']
    rw [div_mul_cancel₀ k (by norm_num : (1000 : ℚ) ≠ 0)]
  · simp [parseRow, hu]

/-- Witness for C8 at the concrete row `rowA` (`avg_d_kbps = 1000`,
`avg_u_kbps = 500`). -/
theorem spec_C8_witness :
    (parseRow rowA).avgDownloadSpeed = some (1000 / 1000) ∧
    (parseRow rowA).avgDownloadSpeed.map (fun x => x * 1000) = some 1000 ∧
    (parseRow rowA).avgUploadSpeed = some (500 / 1000) ∧
    (parseRow rowA).avgLatency = rowA.avg_lat_ms ∧
    (parseRow rowA).tests = rowA.tests ∧
    (parseRow rowA).devices = rowA.devices ∧
    (parseRow rowA).year = rowA.year ∧
    (parseRow rowA).quarter = rowA.quarter :=
  spec_C8 rowA 1000 500 rfl rfl

/-- C9: `getTiles` returns a duplicate-free list whose length is the number of
distinct tile values among the snapshot's Records, and every returned tile is
the tile of some Record of the snapshot. -/
theorem spec_C9 (s : List SpeedData) :
    (getTiles s).Nodup ∧
    (getTiles s).length = (s.map SpeedData.tile).toFinset.card ∧
    ∀ t ∈ getTiles s, ∃ r ∈ s, r.tile = t := by
  refine ⟨nodup_getTiles s, ?_, ?_⟩
  · have hfin : (getTiles s).toFinset = (s.map SpeedData.tile).toFinset := by
      ext t
      simp [List.mem_toFinset, mem_getTiles]
    rw [← List.toFinset_card_of_nodup (nodup_getTiles s), hfin]
  · intro t ht
    obtain ⟨r, hr, hrt⟩ := List.mem_map.mp ((mem_getTiles s t).mp ht)
    exact ⟨r, hr, hrt⟩

/-- Witness for C9 at a concrete three-record snapshot. -/
theorem spec_C9_witness :
    (getTiles exSnap).Nodup ∧
    (getTiles exSnap).length = (exSnap.map SpeedData.tile).toFinset.card ∧
    ∀ t ∈ getTiles exSnap, ∃ r ∈ exSnap, r.tile = t :=
  spec_C9 exSnap

/-- C10: `getByTile` returns the head of the snapshot filtered to matching
tiles — the first (highest-ranked) matching Record in snapshot order, hence a
deterministic result even when duplicate tiles violate the uniqueness
invariant. -/
theorem spec_C10 (s : List SpeedData) (t : String) :
    getByTile s t = (s.filter (fun r => r.tile == t)).head? :=
  getByTile_eq_head_filter s t

end GlobalSpeeds
